import Mathlib

/-!
Shallow embedding of the reconciliation engine in `src/mem0/memory/main.py`
(class `Memory`).  Python dictionaries holding memory payloads are embedded as
a structure with one field per reserved key plus an association list for the
remaining metadata keys; the vector index is an association list from record
id to record; the history ledger is a list of entries in append order.
External providers (embedder, language model, vector search, graph store) are
parameters: the language-model responses are given already passed through
`json.loads`, as `Option Json` (`none` models an unparsable response).
Provider invocations are recorded in an explicit call trace.
-/

namespace Mem0

/-- JSON values as produced by a successful `json.loads` on a language-model
response.  Numbers and booleans never occur in the shapes the engine reads
(`facts` lists and decision objects are strings, arrays and objects), so the
embedding restricts to these constructors plus `null`. -/
inductive Json where
  | str : String → Json
  | arr : List Json → Json
  | obj : List (String × Json) → Json
  | null : Json
deriving Repr

/-- Python `j[k]` on a parsed JSON value, with the exception turned into
`none`: a `KeyError` (key absent from an object) and a `TypeError`
(subscripting a non-object with a string key) both surface as `none`. -/
def Json.getKey : Json → String → Option Json
  | .obj kvs, k => kvs.lookup k
  | _, _ => none

/-- String extraction from a JSON value (`none` when the value is not a
string). -/
def Json.asStr : Json → Option String
  | .str s => some s
  | _ => none

/-- Embedding vectors, opaque to the engine: only equality and cache lookup
matter, so an integer list suffices. -/
abbrev Vec := List Int

/-- A memory payload: the Python dict stored with each vector-index record.
The seven reserved keys of `main.py` (`data`, `hash`, `created_at`,
`updated_at`, `user_id`, `agent_id`, `run_id`) are fields, with `none`
meaning the key is absent; every other key lives in `extra`. -/
structure Payload where
  data : Option String := none
  hash : Option String := none
  created_at : Option String := none
  updated_at : Option String := none
  user_id : Option String := none
  agent_id : Option String := none
  run_id : Option String := none
  extra : List (String × String) := []
deriving Repr, DecidableEq

/-- The empty Python dict. -/
def Payload.empty : Payload := {}

/-- Python truthiness of a dict: `metadata or ...` takes the right branch
exactly when the dict is empty. -/
def Payload.isEmpty (p : Payload) : Bool :=
  p.data.isNone && p.hash.isNone && p.created_at.isNone && p.updated_at.isNone &&
  p.user_id.isNone && p.agent_id.isNone && p.run_id.isNone && p.extra.isEmpty

/-- A record held by the vector index: its embedding vector and payload.
The record id is the association-list key. -/
structure VecRec where
  vec : Vec
  payload : Payload
deriving Repr, DecidableEq

/-- One row of the history ledger, as appended by `db.add_history`.
Modelled from the spec: the SQLite history store (`mem0.memory.storage`) is
not under `src/`; per the spec the ledger is append-only, so `add_history`
is embedded as appending one entry carrying exactly its arguments. -/
structure HistoryEntry where
  memory_id : String
  prev_value : Option String
  new_value : Option String
  event : String
  created_at : Option String := none
  updated_at : Option String := none
  is_deleted : Nat := 0
deriving Repr, DecidableEq

/-- Engine-owned persistent state: the vector index and the history ledger. -/
structure State where
  store : List (String × VecRec)
  history : List HistoryEntry
deriving Repr, DecidableEq

def State.empty : State := ⟨[], []⟩

/-- Caller-supplied filters: only the three owner-scope keys are consulted by
the engine (`user_id`, `agent_id`, `run_id`); `none` means the key is absent
from the Python dict. -/
structure Filters where
  user_id : Option String := none
  agent_id : Option String := none
  run_id : Option String := none
deriving Repr, DecidableEq

def Filters.empty : Filters := {}

/-- Python truthiness of an optional string argument (`if user_id:`):
true exactly for a present, non-empty string. -/
def truthy : Option String → Bool
  | some s => s ≠ ""
  | none => false

/-- Errors raised by the engine.  `configError` and `scopeError` are the two
`ValueError`s of `Memory.add` validation; `jsonError` is the uncaught
`json.loads` failure on the planner response; `memoryNotFound` covers
fetching an absent record id (raised as `ValueError` in `_update_memory`,
and as an attribute/key error in `_delete_memory` and the candidate loop);
`keyError` is a missing required payload key (for example `payload["data"]`). -/
inductive Err where
  | configError (msg : String)
  | scopeError (msg : String)
  | jsonError
  | memoryNotFound (id : String)
  | keyError (key : String)
deriving Repr, DecidableEq

/-- One provider invocation, for the call trace. -/
inductive PCall where
  | embed (text : String)
  | llmExtraction
  | llmPlanner
  | vsSearch
  | vsInsert (id : String)
  | vsUpdate (id : String)
  | vsDelete (id : String)
  | vsGet (id : String)
  | vsList
  | graphAdd
  | graphSearch
  | graphDeleteAll
deriving Repr, DecidableEq

/-- Replace the record stored under `id` (no-op when `id` is absent),
mirroring `vector_store.update`. -/
def storeUpdate (store : List (String × VecRec)) (id : String) (r : VecRec) :
    List (String × VecRec) :=
  store.map (fun kv => if kv.1 = id then (id, r) else kv)

/-- Remove the record stored under `id`, mirroring `vector_store.delete`. -/
def storeRemove (store : List (String × VecRec)) (id : String) :
    List (String × VecRec) :=
  store.filter (fun kv => kv.1 ≠ id)

/-- Embedding of `Memory._create_memory` (main.py lines 555-574).  `newId`
stands for the fresh `uuid.uuid4()`, `now` for the current timestamp and
`digest` for `hashlib.md5(...).hexdigest()`.  Returns the new id, the
metadata dict after the in-place mutations (the caller decides whether those
mutations alias back, per Python `metadata or {}` semantics), the new state
and the provider calls made. -/
def _create_memory (embed : String → Vec) (digest : String → String)
    (newId now : String) (data : String)
    (existing_embeddings : List (String × Vec)) (metadata : Payload)
    (s : State) : String × Payload × State × List PCall :=
  let embRes : Vec × List PCall :=
    match existing_embeddings.lookup data with
    | some v => (v, [])
    | none => (embed data, [PCall.embed data])
  let md : Payload :=
    { metadata with
        data := some data
        hash := some (digest data)
        created_at := some now }
  let s' : State :=
    { store := (newId, ⟨embRes.1, md⟩) :: s.store
      history := s.history ++
        [{ memory_id := newId, prev_value := none, new_value := some data,
           event := "ADD", created_at := some now }] }
  (newId, md, s', embRes.2 ++ [PCall.vsInsert newId])

/-- The new payload built by `Memory._update_memory` (main.py lines 585-596):
start from `metadata or {}`, set `data`, `hash`, copy `created_at` from the
existing payload, set `updated_at := now`, and copy each owner-scope key that
is present in the existing payload. -/
def updatedPayload (digest : String → String) (now data : String)
    (oldP : Payload) (metadata : Option Payload) : Payload :=
  let base := metadata.getD Payload.empty
  let base :=
    { base with
        data := some data
        hash := some (digest data)
        created_at := oldP.created_at
        updated_at := some now }
  let base := if oldP.user_id.isSome then { base with user_id := oldP.user_id } else base
  let base := if oldP.agent_id.isSome then { base with agent_id := oldP.agent_id } else base
  if oldP.run_id.isSome then { base with run_id := oldP.run_id } else base

/-- Embedding of `Memory._update_memory` (main.py lines 576-617).  On an
absent id the Python either catches the store exception and raises
`ValueError`, or dereferences `None`; both are `memoryNotFound` here.  On
success returns the id together with the mutated metadata dict (for the
caller's aliasing decision). -/
def _update_memory (embed : String → Vec) (digest : String → String)
    (now memory_id data : String)
    (existing_embeddings : List (String × Vec)) (metadata : Option Payload)
    (s : State) : Except Err (String × Payload) × State × List PCall :=
  match s.store.lookup memory_id with
  | none => (.error (.memoryNotFound memory_id), s, [PCall.vsGet memory_id])
  | some existing =>
    let prev_value := existing.payload.data
    let new_metadata := updatedPayload digest now data existing.payload metadata
    let embRes : Vec × List PCall :=
      match existing_embeddings.lookup data with
      | some v => (v, [])
      | none => (embed data, [PCall.embed data])
    let s' : State :=
      { store := storeUpdate s.store memory_id ⟨embRes.1, new_metadata⟩
        history := s.history ++
          [{ memory_id := memory_id, prev_value := prev_value,
             new_value := some data, event := "UPDATE",
             created_at := new_metadata.created_at, updated_at := some now }] }
    (.ok (memory_id, new_metadata), s',
      [PCall.vsGet memory_id] ++ embRes.2 ++ [PCall.vsUpdate memory_id])

/-- Embedding of `Memory._delete_memory` (main.py lines 619-626).  An absent
id makes `existing_memory.payload` blow up (`memoryNotFound`); a present
record without a `data` key raises `KeyError` on `payload["data"]`. -/
def _delete_memory (memory_id : String) (s : State) :
    Except Err String × State × List PCall :=
  match s.store.lookup memory_id with
  | none => (.error (.memoryNotFound memory_id), s, [PCall.vsGet memory_id])
  | some existing =>
    match existing.payload.data with
    | none => (.error (.keyError "data"), s, [PCall.vsGet memory_id])
    | some prev =>
      let s' : State :=
        { store := storeRemove s.store memory_id
          history := s.history ++
            [{ memory_id := memory_id, prev_value := some prev,
               new_value := none, event := "DELETE", is_deleted := 1 }] }
      (.ok memory_id, s',
        [PCall.vsGet memory_id, PCall.vsDelete memory_id])

/-- A role-tagged message fragment.  The string-to-list coercion of
`Memory.add` (a bare string becomes one user message) is left to the caller
of the embedding; a message always carries a `content` key here. -/
structure Msg where
  role : String
  content : String
deriving Repr, DecidableEq

/-- One entry of the `returned_memories` list built by
`_add_to_vector_store`.  `memory` and `previous_memory` hold whatever JSON
value the decision carried (`previous_memory` is absent for ADD/DELETE). -/
structure RetMem where
  id : String
  memory : Json
  event : String
  previous_memory : Option Json := none
deriving Repr

/-- Accumulator for the decision-application loop: the reported mutations,
the shared (alias-mutated) metadata dict, the store state, the count of
fresh ids consumed so far, and the provider-call trace. -/
structure DecAcc where
  returned : List RetMem
  metadata : Payload
  st : State
  ctr : Nat
  calls : List PCall
deriving Repr

/-- Python dict assignment `cache[k] = v` on the per-call embedding cache. -/
def cacheInsert (cache : List (String × Vec)) (k : String) (v : Vec) :
    List (String × Vec) :=
  if (cache.lookup k).isSome then
    cache.map (fun kv => if kv.1 = k then (k, v) else kv)
  else cache ++ [(k, v)]

/-- Application of one planner decision (main.py lines 212-253).  The whole
body sits in a per-decision `except Exception` handler that logs and moves
on, so every failure inside it leaves the accumulator as it stood at the
point of failure: a missing `event`/`text`/`id` key, an unknown handle
(`temp_uuid_mapping[resp["id"]]` raising `KeyError`) and a `MemoryNotFound`
from the store writer all skip the decision, while a missing `old_memory`
(UPDATE) or `text` (DELETE) key fails only after the mutation, keeping the
mutation but skipping the report entry.  A non-string decision field that
Python would feed into a provider before failing is modelled as the same
skip. -/
def applyOneDecision (embed : String → Vec) (digest : String → String)
    (freshIds : Nat → String) (now : String)
    (cache : List (String × Vec)) (mapping : List (String × String))
    (resp : Json) (acc : DecAcc) : DecAcc :=
  match resp.getKey "event" with
  | none => acc
  | some ev =>
    match ev with
    | .str "ADD" =>
      match (resp.getKey "text").bind Json.asStr with
      | none => acc
      | some text =>
        let r := _create_memory embed digest (freshIds acc.ctr) now text cache
          acc.metadata acc.st
        let metadata' := if acc.metadata.isEmpty then acc.metadata else r.2.1
        { returned := acc.returned ++ [⟨r.1, .str text, "ADD", none⟩]
          metadata := metadata'
          st := r.2.2.1
          ctr := acc.ctr + 1
          calls := acc.calls ++ r.2.2.2 }
    | .str "UPDATE" =>
      match resp.getKey "id" with
      | none => acc
      | some idJ =>
        match idJ.asStr.bind (fun h => mapping.lookup h) with
        | none => acc
        | some realId =>
          match (resp.getKey "text").bind Json.asStr with
          | none => acc
          | some text =>
            let r := _update_memory embed digest now realId text cache
              (some acc.metadata) acc.st
            match r.1 with
            | .error _ => { acc with st := r.2.1, calls := acc.calls ++ r.2.2 }
            | .ok idmd =>
              let metadata' :=
                if acc.metadata.isEmpty then acc.metadata else idmd.2
              let acc' : DecAcc :=
                { acc with
                    metadata := metadata'
                    st := r.2.1
                    calls := acc.calls ++ r.2.2 }
              match resp.getKey "old_memory" with
              | none => acc'
              | some om =>
                { acc' with returned :=
                    acc'.returned ++ [⟨realId, .str text, "UPDATE", some om⟩] }
    | .str "DELETE" =>
      match resp.getKey "id" with
      | none => acc
      | some idJ =>
        match idJ.asStr.bind (fun h => mapping.lookup h) with
        | none => acc
        | some realId =>
          let r := _delete_memory realId acc.st
          match r.1 with
          | .error _ => { acc with st := r.2.1, calls := acc.calls ++ r.2.2 }
          | .ok _ =>
            let acc' := { acc with st := r.2.1, calls := acc.calls ++ r.2.2 }
            match resp.getKey "text" with
            | none => acc'
            | some tJ =>
              { acc' with returned :=
                  acc'.returned ++ [⟨realId, tJ, "DELETE", none⟩] }
    | _ => acc

/-- The decision loop of `_add_to_vector_store` (main.py lines 212-253),
applied in order received. -/
def applyDecisions (embed : String → Vec) (digest : String → String)
    (freshIds : Nat → String) (now : String)
    (cache : List (String × Vec)) (mapping : List (String × String)) :
    List Json → DecAcc → DecAcc
  | [], acc => acc
  | d :: rest, acc =>
    applyDecisions embed digest freshIds now cache mapping rest
      (applyOneDecision embed digest freshIds now cache mapping d acc)

/-- The fact list after `try: json.loads(response)["facts"] except: []`
(main.py lines 173-177): an unparsable response, a response without a
`facts` key and a non-object response all degrade to the empty list.  The
engine then iterates the value; a `facts` value that is not an array of
strings drives providers on non-text input, outside the modelled oracle
contract, so it is restricted to the string elements here. -/
def newRetrievedFacts (resp : Option Json) : List String :=
  match resp with
  | none => []
  | some j =>
    match j.getKey "facts" with
    | some (.arr fs) => fs.filterMap Json.asStr
    | _ => []

/-- Candidate rows `{"id": mem.id, "text": mem.payload["data"]}` collected
from one search result (main.py line 190); a record without a `data` key
raises `KeyError`, uncaught. -/
def candTexts : List (String × VecRec) → Option (List (String × String))
  | [] => some []
  | kv :: rest =>
    match kv.2.payload.data with
    | none => none
    | some t => (candTexts rest).map (fun l => (kv.1, t) :: l)

/-- The retrieval loop of `_add_to_vector_store` (main.py lines 179-191):
embed each fact, cache the embedding under the fact text, query the vector
index, and collect `{id, text}` candidate pairs across all facts. -/
def retrieveCandidates (embed : String → Vec)
    (searchFn : List (String × VecRec) → Vec → Filters → List (String × VecRec))
    (filters : Filters) (store : List (String × VecRec)) :
    List String → List (String × Vec) → List (String × String) → List PCall →
    Except Err (List (String × Vec) × List (String × String)) × List PCall
  | [], cache, cands, calls => (.ok (cache, cands), calls)
  | f :: rest, cache, cands, calls =>
    let emb := embed f
    let cache' := cacheInsert cache f emb
    let results := searchFn store emb filters
    let calls' := calls ++ [PCall.embed f, PCall.vsSearch]
    match candTexts results with
    | none => (.error (.keyError "data"), calls')
    | some newCands =>
      retrieveCandidates embed searchFn filters store rest cache'
        (cands ++ newCands) calls'

/-- Embedding of `Memory._add_to_vector_store` (main.py lines 155-259).
The two language-model responses arrive post-`json.loads` (`none` is an
unparsable response).  An unparsable planner response is fatal (line 208 is
outside every handler); a parsed planner response without a usable `memory`
list yields the empty decision list (the outer handler at lines 254-255
catches the lookup/iteration failure and falls through to the return).
Returns the reported mutations, the mutated metadata dict, the new state
and the call trace. -/
def _add_to_vector_store (embed : String → Vec) (digest : String → String)
    (searchFn : List (String × VecRec) → Vec → Filters → List (String × VecRec))
    (extractionResp plannerResp : Option Json)
    (freshIds : Nat → String) (now : String)
    (metadata : Payload) (filters : Filters) (s : State) :
    Except Err (List RetMem) × Payload × State × List PCall :=
  let facts := newRetrievedFacts extractionResp
  let retr := retrieveCandidates embed searchFn filters s.store facts [] []
    [PCall.llmExtraction]
  match retr.1 with
  | .error e => (.error e, metadata, s, retr.2)
  | .ok cc =>
    let mapping := cc.2.enum.map (fun ic => (toString ic.1, ic.2.1))
    match plannerResp with
    | none => (.error .jsonError, metadata, s, retr.2 ++ [PCall.llmPlanner])
    | some j =>
      let decisions : List Json :=
        match j.getKey "memory" with
        | some (.arr ds) => ds
        | _ => []
      let acc := applyDecisions embed digest freshIds now cc.1 mapping decisions
        ⟨[], metadata, s, 0, retr.2 ++ [PCall.llmPlanner]⟩
      (.ok acc.returned, acc.metadata, acc.st, acc.calls)

/-- Raw-mode ingestion loop of `_add_raw_to_vector_store` (main.py lines
261-282): embed each message content, then create a record with the content
pre-cached so `_create_memory` reuses the embedding. -/
def rawLoop (embed : String → Vec) (digest : String → String)
    (freshIds : Nat → String) (now : String) :
    List Msg → DecAcc → DecAcc
  | [], acc => acc
  | m :: rest, acc =>
    let emb := embed m.content
    let r := _create_memory embed digest (freshIds acc.ctr) now m.content
      [(m.content, emb)] acc.metadata acc.st
    let metadata' := if acc.metadata.isEmpty then acc.metadata else r.2.1
    rawLoop embed digest freshIds now rest
      ⟨acc.returned ++ [⟨r.1, .str m.content, "ADD", none⟩], metadata',
        r.2.2.1, acc.ctr + 1, acc.calls ++ [PCall.embed m.content] ++ r.2.2.2⟩

/-- Embedding of `Memory._add_raw_to_vector_store` (main.py lines 261-282);
never raises. -/
def _add_raw_to_vector_store (embed : String → Vec) (digest : String → String)
    (freshIds : Nat → String) (now : String)
    (messages : List Msg) (metadata : Payload) (s : State) :
    List RetMem × Payload × State × List PCall :=
  let acc := rawLoop embed digest freshIds now messages ⟨[], metadata, s, 0, []⟩
  (acc.returned, acc.metadata, acc.st, acc.calls)

/-- An entity/relation triple produced by the graph path.  Modelled from the
spec: `mem0.memory.graph_memory` is not under `src/`; per the spec the graph
path produces "the graph-path entity/relation list", so `graph.add` is
embedded as an oracle returning a list of triples. -/
structure GEntity where
  source : String
  relationship : String
  target : String
deriving Repr, DecidableEq

/-- Embedding of `Memory._add_to_graph` (main.py lines 284-297): joins the
non-system message contents with newlines and hands them to the graph
store when the api version is v1.1 and graph is enabled. -/
def _add_to_graph (graphAdd : String → Filters → List GEntity)
    (api_version : String) (enable_graph : Bool)
    (messages : List Msg) (filters : Filters) : List GEntity × List PCall :=
  if api_version == "v1.1" && enable_graph then
    let data := String.intercalate "\n"
      ((messages.filter (fun m => m.role ≠ "system")).map (fun m => m.content))
    (graphAdd data filters, [PCall.graphAdd])
  else ([], [])

/-- The value a completed path future yields inside `Memory.add`: both the
vector path and the graph path hand back a Python list. -/
inductive PathRes where
  | vec (l : List RetMem)
  | gph (l : List GEntity)
deriving Repr

/-- The dispatch predicate of main.py line 130:
`isinstance(result, list) or (isinstance(result, dict) and "id" in result
or "event" in result)`.  A vector result is a Python list, so the first
disjunct holds; the graph result is the entity/relation list (see
`GEntity`), also a Python list, so the first disjunct holds for it too. -/
def looksLikeVectorResult : PathRes → Bool
  | .vec _ => true
  | .gph _ => true

/-- The result-gathering loop of main.py lines 125-135 over the completed
futures in submission order: each result satisfying the dispatch predicate
overwrites `vector_store_result`, the rest overwrite `graph_result`. -/
def gatherResults (rs : List PathRes) : Option PathRes × Option PathRes :=
  rs.foldl
    (fun acc r =>
      if looksLikeVectorResult r then (some r, acc.2) else (acc.1, some r))
    (none, none)

/-- Return shape of `Memory.add` (main.py lines 137-153): the v1.1 dict with
or without the `relations` key, or the deprecated bare vector result. -/
inductive AddRet where
  | v11Graph (results relations : Option PathRes)
  | v11 (results : Option PathRes)
  | legacy (results : Option PathRes)
deriving Repr

/-- The provider oracles the engine consumes, bundled: embedder, digest
(`hashlib.md5(...).hexdigest()`, abstract), vector-index search and list,
the two language-model responses post-`json.loads`, graph-store responses
(modelled from the spec, see `GEntity`), the `uuid.uuid4()` supply and the
current timestamp. -/
structure Providers where
  embed : String → Vec
  digest : String → String
  searchFn : List (String × VecRec) → Vec → Filters → List (String × VecRec)
  listFn : List (String × VecRec) → Filters → List (String × VecRec)
  extractionResp : Option Json
  plannerResp : Option Json
  graphAdd : String → Filters → List GEntity
  graphSearch : String → Filters → List GEntity
  freshIds : Nat → String
  now : String

/-- Embedding of `Memory.add` (main.py lines 61-153): validate the
skip-extraction/store-mode combination, merge truthy scope identifiers into
filters and metadata, validate scope presence, run the vector path (raw or
extracted) and the graph path, re-raise the first path failure in
submission order, dispatch the successful results and shape the return
value by api version.  The two paths run concurrently in the source with no
shared mutable state, so sequential composition is observationally the
same; the trace lists vector-path calls before graph-path calls. -/
def Memory.add (P : Providers) (api_version : String) (enable_graph : Bool)
    (messages : List Msg) (user_id agent_id run_id : Option String)
    (metadata0 : Option Payload) (filters0 : Option Filters)
    (skip_extraction : Bool) (store_mode : String) (s : State) :
    Except Err AddRet × State × List PCall :=
  if skip_extraction && (store_mode == "both" || store_mode == "graph") then
    (.error (.configError
      "Cannot add to graph if skip_extraction=True; please set store_mode=vector."),
      s, [])
  else
    let metadata := metadata0.getD Payload.empty
    let filters := filters0.getD Filters.empty
    let fm := if truthy user_id then
        ({ filters with user_id := user_id }, { metadata with user_id := user_id })
      else (filters, metadata)
    let fm := if truthy agent_id then
        ({ fm.1 with agent_id := agent_id }, { fm.2 with agent_id := agent_id })
      else fm
    let fm := if truthy run_id then
        ({ fm.1 with run_id := run_id }, { fm.2 with run_id := run_id })
      else fm
    let filters := fm.1
    let metadata := fm.2
    if !(filters.user_id.isSome || filters.agent_id.isSome || filters.run_id.isSome) then
      (.error (.scopeError
        "One of the filters: user_id, agent_id or run_id is required!"), s, [])
    else
      let vecOut : Option (Except Err (List RetMem) × State × List PCall) :=
        if store_mode == "both" || store_mode == "vector" then
          if skip_extraction then
            let r := _add_raw_to_vector_store P.embed P.digest P.freshIds P.now
              messages metadata s
            some (.ok r.1, r.2.2.1, r.2.2.2)
          else
            let r := _add_to_vector_store P.embed P.digest P.searchFn
              P.extractionResp P.plannerResp P.freshIds P.now metadata filters s
            some (r.1, r.2.2.1, r.2.2.2)
        else none
      let gphOut : Option (List GEntity × List PCall) :=
        if (store_mode == "both" || store_mode == "graph") && enable_graph then
          some (_add_to_graph P.graphAdd api_version enable_graph messages filters)
        else none
      let gcalls := (gphOut.map (fun g => g.2)).getD []
      match vecOut with
      | some (.error e, st, vc) => (.error e, st, vc ++ gcalls)
      | vres =>
        let vcalls := (vres.map (fun v => v.2.2)).getD []
        let st := (vres.map (fun v => v.2.1)).getD s
        let pres : List PathRes :=
          (match vres with
           | some (.ok l, _, _) => [PathRes.vec l]
           | _ => []) ++
          (match gphOut with
           | some g => [PathRes.gph g.1]
           | none => [])
        let gr := gatherResults pres
        let ret : AddRet :=
          if api_version == "v1.1" then
            if (store_mode == "graph" || store_mode == "both") && enable_graph then
              .v11Graph gr.1 gr.2
            else .v11 gr.1
          else .legacy gr.1
        (.ok ret, st, vcalls ++ gcalls)

/-- The caller-facing item built by `Memory.get` (main.py lines 299-335):
the `MemoryItem` dump merged with the truthy scope keys and, when present,
the non-reserved metadata. -/
structure GetResult where
  id : String
  memory : String
  hash : Option String := none
  created_at : Option String := none
  updated_at : Option String := none
  metadata : List (String × String) := []
  user_id : Option String := none
  agent_id : Option String := none
  run_id : Option String := none
deriving Repr, DecidableEq

/-- Embedding of `Memory.get` (main.py lines 299-335): an absent id returns
`None` (`if not memory: return None`); a present record is rendered, with
`payload["data"]` raising `KeyError` when the data key is missing.  Scope
keys are kept only when truthy (`if memory.payload.get(key)`), and the
metadata field carries the non-reserved payload keys ([] when there are
none). -/
def Memory.get (memory_id : String) (s : State) :
    Except Err (Option GetResult) × List PCall :=
  match s.store.lookup memory_id with
  | none => (.ok none, [PCall.vsGet memory_id])
  | some r =>
    match r.payload.data with
    | none => (.error (.keyError "data"), [PCall.vsGet memory_id])
    | some d =>
      let p := r.payload
      (.ok (some
        { id := memory_id, memory := d, hash := p.hash,
          created_at := p.created_at, updated_at := p.updated_at,
          metadata := p.extra,
          user_id := if truthy p.user_id then p.user_id else none,
          agent_id := if truthy p.agent_id then p.agent_id else none,
          run_id := if truthy p.run_id then p.run_id else none }),
        [PCall.vsGet memory_id])

/-- One row of `_search_vector_store` output (main.py lines 478-496).
Unlike `Memory.get`, the scope keys are merged by presence
(`if key in mem.payload`), not truthiness; the provider-supplied similarity
score is passed through unmodelled (floating point, never inspected by the
engine). -/
structure SearchItem where
  id : String
  memory : String
  hash : Option String := none
  created_at : Option String := none
  updated_at : Option String := none
  metadata : List (String × String) := []
  user_id : Option String := none
  agent_id : Option String := none
  run_id : Option String := none
deriving Repr, DecidableEq

/-- Render the search hits; a hit without a `data` key raises `KeyError`
(`mem.payload["data"]`). -/
def searchItems : List (String × VecRec) → Option (List SearchItem)
  | [] => some []
  | kv :: rest =>
    match kv.2.payload.data with
    | none => none
    | some d =>
      (searchItems rest).map (fun l =>
        ({ id := kv.1, memory := d, hash := kv.2.payload.hash,
           created_at := kv.2.payload.created_at,
           updated_at := kv.2.payload.updated_at,
           metadata := kv.2.payload.extra,
           user_id := kv.2.payload.user_id,
           agent_id := kv.2.payload.agent_id,
           run_id := kv.2.payload.run_id } : SearchItem) :: l)

/-- Return shape of `Memory.search` (main.py lines 449-462). -/
inductive SearchRet where
  | v11Graph (results : List SearchItem) (relations : List GEntity)
  | v11 (results : List SearchItem)
  | legacy (results : List SearchItem)
deriving Repr, DecidableEq

/-- Embedding of `Memory.search` (main.py lines 413-462): merge truthy scope
identifiers into the filters, reject a call with no scope key present
before touching any provider, then embed the query, search the vector
index, optionally search the graph, and shape the result by api version. -/
def Memory.search (P : Providers) (api_version : String) (enable_graph : Bool)
    (query : String) (user_id agent_id run_id : Option String)
    (filters0 : Option Filters) (s : State) :
    Except Err SearchRet × List PCall :=
  let filters := filters0.getD Filters.empty
  let filters := if truthy user_id then { filters with user_id := user_id } else filters
  let filters := if truthy agent_id then { filters with agent_id := agent_id } else filters
  let filters := if truthy run_id then { filters with run_id := run_id } else filters
  if !(filters.user_id.isSome || filters.agent_id.isSome || filters.run_id.isSome) then
    (.error (.scopeError
      "One of the filters: user_id, agent_id or run_id is required!"), [])
  else
    let emb := P.embed query
    let found := P.searchFn s.store emb filters
    let gq : Option (List GEntity) :=
      if api_version == "v1.1" && enable_graph then
        some (P.graphSearch query filters)
      else none
    let calls := [PCall.embed query, PCall.vsSearch] ++
      (if gq.isSome then [PCall.graphSearch] else [])
    match searchItems found with
    | none => (.error (.keyError "data"), calls)
    | some items =>
      if api_version == "v1.1" then
        match gq with
        | some g => (.ok (.v11Graph items g), calls)
        | none => (.ok (.v11 items), calls)
      else (.ok (.legacy items), calls)

/-- Embedding of `Memory.update` (main.py lines 500-509): embed the new text
into a fresh one-entry cache and delegate to `_update_memory` with no
metadata (`metadata=None`), so the rebuilt payload starts from the empty
dict. -/
def Memory.update (P : Providers) (memory_id data : String) (s : State) :
    Except Err String × State × List PCall :=
  let emb := P.embed data
  let r := _update_memory P.embed P.digest P.now memory_id data [(data, emb)]
    none s
  match r.1 with
  | .error e => (.error e, r.2.1, [PCall.embed data] ++ r.2.2)
  | .ok _ => (.ok "Memory updated successfully!", r.2.1,
      [PCall.embed data] ++ r.2.2)

/-- Embedding of `Memory.delete` (main.py lines 511-517). -/
def Memory.delete (memory_id : String) (s : State) :
    Except Err String × State × List PCall :=
  let r := _delete_memory memory_id s
  match r.1 with
  | .error e => (.error e, r.2.1, r.2.2)
  | .ok _ => (.ok "Memory deleted successfully!", r.2.1, r.2.2)

/-- Deletion loop of `Memory.delete_all` (main.py lines 537-539): delete
each listed record in order; a failure aborts the remaining deletions. -/
def deleteLoop : List String → State → List PCall →
    Except Err Unit × State × List PCall
  | [], s, calls => (.ok (), s, calls)
  | id :: rest, s, calls =>
    let r := _delete_memory id s
    match r.1 with
    | .error e => (.error e, r.2.1, calls ++ r.2.2)
    | .ok _ => deleteLoop rest r.2.1 (calls ++ r.2.2)

/-- Embedding of `Memory.delete_all` (main.py lines 519-546): build filters
from truthy identifiers, reject an empty filter set before touching any
provider (`if not filters: raise ValueError`), then list and delete every
matching record and finally clear the graph scope when enabled. -/
def Memory.delete_all (P : Providers) (api_version : String)
    (enable_graph : Bool) (user_id agent_id run_id : Option String)
    (s : State) : Except Err String × State × List PCall :=
  let filters := Filters.empty
  let filters := if truthy user_id then { filters with user_id := user_id } else filters
  let filters := if truthy agent_id then { filters with agent_id := agent_id } else filters
  let filters := if truthy run_id then { filters with run_id := run_id } else filters
  if filters = Filters.empty then
    (.error (.scopeError
      "At least one filter is required to delete all memories. If you want to delete all memories, use the reset() method."),
      s, [])
  else
    let mems := P.listFn s.store filters
    let r := deleteLoop (mems.map (fun kv => kv.1)) s [PCall.vsList]
    match r.1 with
    | .error e => (.error e, r.2.1, r.2.2)
    | .ok _ =>
      let gcalls := if api_version == "v1.1" && enable_graph then
          [PCall.graphDeleteAll]
        else []
      (.ok "Memories deleted successfully!", r.2.1, r.2.2 ++ gcalls)

/-! Helper lemmas and sample provider instantiations used by the
verification below. -/

/-- Association-list lookup finds the head entry when the keys agree. -/
theorem lookup_cons_self (k : String) (v : VecRec)
    (rest : List (String × VecRec)) :
    List.lookup k ((k, v) :: rest) = some v := by
  simp [List.lookup]

/-- Association-list lookup skips a head entry with a different key. -/
theorem lookup_cons_ne (a k : String) (v : VecRec)
    (rest : List (String × VecRec)) (h : a ≠ k) :
    List.lookup a ((k, v) :: rest) = List.lookup a rest := by
  simp [List.lookup, beq_eq_false_iff_ne.mpr h]

/-- Unfolding `storeUpdate` over a cons cell. -/
theorem storeUpdate_cons (k0 : String) (v0 : VecRec)
    (rest : List (String × VecRec)) (id : String) (r : VecRec) :
    storeUpdate ((k0, v0) :: rest) id r =
      (if k0 = id then (id, r) else (k0, v0)) :: storeUpdate rest id r := by
  by_cases hk : k0 = id <;> simp [storeUpdate, hk]

/-- Updating the record stored under a present key makes the new record the
one found there. -/
theorem storeUpdate_lookup_self (store : List (String × VecRec))
    (id : String) (r r' : VecRec) (h : store.lookup id = some r) :
    (storeUpdate store id r').lookup id = some r' := by
  induction store generalizing r with
  | nil => simp [List.lookup] at h
  | cons kv rest ih =>
    obtain ⟨k0, v0⟩ := kv
    rw [storeUpdate_cons]
    by_cases hk : k0 = id
    · rw [if_pos hk, lookup_cons_self]
    · rw [if_neg hk, lookup_cons_ne id k0 v0 _ (fun he => hk he.symm)]
      rw [lookup_cons_ne id k0 v0 rest (fun he => hk he.symm)] at h
      exact ih r h

/-- Updating the record stored under one key leaves every other key's lookup
unchanged. -/
theorem storeUpdate_lookup_other (store : List (String × VecRec))
    (id k : String) (r' : VecRec) (h : k ≠ id) :
    (storeUpdate store id r').lookup k = store.lookup k := by
  induction store with
  | nil => simp [storeUpdate]
  | cons kv rest ih =>
    obtain ⟨k0, v0⟩ := kv
    rw [storeUpdate_cons]
    by_cases hk : k0 = id
    · rw [if_pos hk, lookup_cons_ne k id r' _ h, hk,
        lookup_cons_ne k id v0 rest (hk ▸ h)]
      exact ih
    · by_cases hkk : k = k0
      · subst hkk
        rw [if_neg hk, lookup_cons_self, lookup_cons_self]
      · rw [if_neg hk, lookup_cons_ne k k0 v0 _ hkk,
          lookup_cons_ne k k0 v0 rest hkk]
        exact ih

/-- A fixed provider instantiation for concrete evaluations: constant
embedder, marker digest, empty similarity results, extraction returning a
single fact and a planner returning a single ADD decision. -/
def sampleProviders : Providers where
  embed := fun _ => [1]
  digest := fun s => s ++ "#"
  searchFn := fun _ _ _ => []
  listFn := fun store _ => store
  extractionResp := some (.obj [("facts", .arr [.str "f"])])
  plannerResp := some (.obj [("memory", .arr
    [.obj [("event", .str "ADD"), ("text", .str "f")]])])
  graphAdd := fun _ _ => [⟨"a", "r", "b"⟩]
  graphSearch := fun _ _ => []
  freshIds := fun n => "id" ++ toString n
  now := "T"

/-- C4: for every add call with `skip_extraction = true` and a
graph-inclusive `store_mode` ("both" or "graph"), the call fails with the
configuration error before any provider call is made (empty call trace) and
with the store state unchanged, for any message content and any scope. -/
theorem c4_skip_extraction_graph_conflict (P : Providers)
    (api_version : String) (enable_graph : Bool) (messages : List Msg)
    (user_id agent_id run_id : Option String) (metadata0 : Option Payload)
    (filters0 : Option Filters) (store_mode : String) (s : State)
    (h : store_mode = "both" ∨ store_mode = "graph") :
    Memory.add P api_version enable_graph messages user_id agent_id run_id
        metadata0 filters0 true store_mode s =
      (.error (.configError
        "Cannot add to graph if skip_extraction=True; please set store_mode=vector."),
        s, []) := by
  rcases h with rfl | rfl <;> simp [Memory.add]

theorem c4_skip_extraction_graph_conflict_witness :
    ("both" = "both" ∨ "both" = "graph") ∧
    Memory.add sampleProviders "v1.1" true [⟨"user", "hello"⟩] (some "u")
        none none none none true "both" State.empty =
      (.error (.configError
        "Cannot add to graph if skip_extraction=True; please set store_mode=vector."),
        State.empty, []) :=
  ⟨Or.inl rfl,
    c4_skip_extraction_graph_conflict sampleProviders "v1.1" true
      [⟨"user", "hello"⟩] (some "u") none none none none "both" State.empty
      (Or.inl rfl)⟩

/-- C9: for every id absent from the vector index, the caller-facing
`get` returns `None` rather than raising, while `update` and `delete` on
the same absent id fail with the not-found error. -/
theorem c9_get_absent_returns_none (P : Providers) (memory_id data : String)
    (s : State) (h : s.store.lookup memory_id = none) :
    (Memory.get memory_id s).1 = .ok none ∧
    (Memory.update P memory_id data s).1 = .error (.memoryNotFound memory_id) ∧
    (Memory.delete memory_id s).1 = .error (.memoryNotFound memory_id) := by
  refine ⟨?_, ?_, ?_⟩ <;>
    simp [Memory.get, Memory.update, Memory.delete, _update_memory,
      _delete_memory, h]

theorem c9_get_absent_returns_none_witness :
    (State.empty.store.lookup "x" = none) ∧
    (Memory.get "x" State.empty).1 = .ok none ∧
    (Memory.update sampleProviders "x" "d" State.empty).1 =
      .error (.memoryNotFound "x") ∧
    (Memory.delete "x" State.empty).1 = .error (.memoryNotFound "x") :=
  ⟨rfl, c9_get_absent_returns_none sampleProviders "x" "d" State.empty rfl⟩

/-- C6: every successfully applied ADD decision writes exactly one new
record to the vector index (the store grows by exactly that record) and
appends exactly one ADD history entry with previous value null and new
value the fact text; the stored hash is the digest of the data text, and
when the fact text was embedded earlier in the call (present in the
per-call cache) the cached embedding is reused and no embed call is made
(the call trace is just the insert). -/
theorem c6_create_memory_add (embed : String → Vec)
    (digest : String → String) (newId now data : String)
    (cache : List (String × Vec)) (metadata : Payload) (s : State) :
    _create_memory embed digest newId now data cache metadata s =
      (newId,
        { metadata with
            data := some data
            hash := some (digest data)
            created_at := some now },
        { store := (newId,
            ⟨(match cache.lookup data with
              | some v => v
              | none => embed data),
              { metadata with
                  data := some data
                  hash := some (digest data)
                  created_at := some now }⟩) :: s.store
          history := s.history ++
            [{ memory_id := newId, prev_value := none, new_value := some data,
               event := "ADD", created_at := some now }] },
        (match cache.lookup data with
         | some _ => []
         | none => [PCall.embed data]) ++ [PCall.vsInsert newId]) ∧
    (∀ v : Vec, cache.lookup data = some v →
      (_create_memory embed digest newId now data cache metadata s).2.2.2 =
        [PCall.vsInsert newId] ∧
      ((_create_memory embed digest newId now data cache metadata
          s).2.2.1).store = (newId,
        ⟨v, { metadata with
                data := some data
                hash := some (digest data)
                created_at := some now }⟩) :: s.store) := by
  constructor
  · cases hc : cache.lookup data <;> simp [_create_memory, hc]
  · intro v hv
    constructor <;> simp [_create_memory, hv]

theorem c6_create_memory_add_witness :
    ([("f", [9])].lookup "f" = some ([9] : Vec)) ∧
    (_create_memory sampleProviders.embed sampleProviders.digest "id0" "T"
        "f" [("f", [9])] Payload.empty State.empty).2.2.2 =
      [PCall.vsInsert "id0"] ∧
    ((_create_memory sampleProviders.embed sampleProviders.digest "id0" "T"
        "f" [("f", [9])] Payload.empty State.empty).2.2.1).store =
      [("id0",
        ⟨[9], { Payload.empty with
                  data := some "f", hash := some "f#",
                  created_at := some "T" }⟩)] :=
  ⟨rfl,
    (c6_create_memory_add sampleProviders.embed sampleProviders.digest "id0"
      "T" "f" [("f", [9])] Payload.empty State.empty).2 [9] rfl⟩

/-- Closed form of the payload rebuilt by `_update_memory`: the metadata
base with `data`, `hash`, `created_at`, `updated_at` overwritten and each
owner-scope key taken from the existing payload whenever present there. -/
theorem updatedPayload_eq (digest : String → String) (now data : String)
    (oldP : Payload) (metadata : Option Payload) :
    updatedPayload digest now data oldP metadata =
      { metadata.getD Payload.empty with
          data := some data
          hash := some (digest data)
          created_at := oldP.created_at
          updated_at := some now
          user_id := if oldP.user_id.isSome then oldP.user_id
            else (metadata.getD Payload.empty).user_id
          agent_id := if oldP.agent_id.isSome then oldP.agent_id
            else (metadata.getD Payload.empty).agent_id
          run_id := if oldP.run_id.isSome then oldP.run_id
            else (metadata.getD Payload.empty).run_id } := by
  simp only [updatedPayload]
  split_ifs <;> rfl

/-- C7: for every UPDATE applied to an existing record, the operation
succeeds, the record stays under the same id with its `created_at` and its
present owner-scope keys unchanged and `updated_at` newly set to the
current time, every other record is untouched, and the appended UPDATE
history entry carries both the previous text and the new text. -/
theorem c7_update_memory_preserves (embed : String → Vec)
    (digest : String → String) (now memory_id data : String)
    (cache : List (String × Vec)) (metadata : Option Payload) (s : State)
    (r : VecRec) (h : s.store.lookup memory_id = some r) :
    (_update_memory embed digest now memory_id data cache metadata s).1 =
      .ok (memory_id, updatedPayload digest now data r.payload metadata) ∧
    (updatedPayload digest now data r.payload metadata).created_at =
      r.payload.created_at ∧
    (updatedPayload digest now data r.payload metadata).updated_at =
      some now ∧
    (r.payload.user_id.isSome = true →
      (updatedPayload digest now data r.payload metadata).user_id =
        r.payload.user_id) ∧
    (r.payload.agent_id.isSome = true →
      (updatedPayload digest now data r.payload metadata).agent_id =
        r.payload.agent_id) ∧
    (r.payload.run_id.isSome = true →
      (updatedPayload digest now data r.payload metadata).run_id =
        r.payload.run_id) ∧
    ((_update_memory embed digest now memory_id data cache metadata
        s).2.1).store.lookup memory_id =
      some ⟨(match cache.lookup data with
             | some v => v
             | none => embed data),
        updatedPayload digest now data r.payload metadata⟩ ∧
    (∀ k, k ≠ memory_id →
      ((_update_memory embed digest now memory_id data cache metadata
          s).2.1).store.lookup k = s.store.lookup k) ∧
    ((_update_memory embed digest now memory_id data cache metadata
        s).2.1).history = s.history ++
      [{ memory_id := memory_id, prev_value := r.payload.data,
         new_value := some data, event := "UPDATE",
         created_at := r.payload.created_at, updated_at := some now }] := by
  have hca : (updatedPayload digest now data r.payload metadata).created_at =
      r.payload.created_at := by
    rw [updatedPayload_eq]
  refine ⟨?_, hca, ?_, ?_, ?_, ?_, ?_, ?_, ?_⟩
  · simp [_update_memory, h]
  · rw [updatedPayload_eq]
  · intro hiu
    rw [updatedPayload_eq]
    simp [hiu]
  · intro hia
    rw [updatedPayload_eq]
    simp [hia]
  · intro hir
    rw [updatedPayload_eq]
    simp [hir]
  · have hst : ((_update_memory embed digest now memory_id data cache metadata
        s).2.1).store = storeUpdate s.store memory_id
          ⟨(match cache.lookup data with
             | some v => v
             | none => embed data),
            updatedPayload digest now data r.payload metadata⟩ := by
      cases hc : cache.lookup data <;> simp [_update_memory, h, hc]
    rw [hst]
    exact storeUpdate_lookup_self s.store memory_id r _ h
  · intro k hk
    have hst : ((_update_memory embed digest now memory_id data cache metadata
        s).2.1).store = storeUpdate s.store memory_id
          ⟨(match cache.lookup data with
             | some v => v
             | none => embed data),
            updatedPayload digest now data r.payload metadata⟩ := by
      cases hc : cache.lookup data <;> simp [_update_memory, h, hc]
    rw [hst]
    exact storeUpdate_lookup_other s.store memory_id k _ hk
  · simp [_update_memory, h, hca]

/-- Concrete record used by the UPDATE witnesses: an existing memory with
one non-reserved metadata key. -/
def sampleRecord : VecRec :=
  ⟨[2], { data := some "old", hash := some "h", created_at := some "T0",
          user_id := some "u", extra := [("k", "v")] }⟩

/-- Concrete one-record state used by the UPDATE witnesses. -/
def sampleState : State := ⟨[("m1", sampleRecord)], []⟩

theorem c7_update_memory_preserves_witness :
    (sampleState.store.lookup "m1" = some sampleRecord) ∧
    ((_update_memory sampleProviders.embed sampleProviders.digest "T" "m1"
        "new" [] none sampleState).1 =
      .ok ("m1", updatedPayload sampleProviders.digest "T" "new"
        sampleRecord.payload none) ∧
    (updatedPayload sampleProviders.digest "T" "new"
        sampleRecord.payload none).created_at = sampleRecord.payload.created_at ∧
    (updatedPayload sampleProviders.digest "T" "new"
        sampleRecord.payload none).updated_at = some "T" ∧
    (sampleRecord.payload.user_id.isSome = true →
      (updatedPayload sampleProviders.digest "T" "new"
          sampleRecord.payload none).user_id = sampleRecord.payload.user_id) ∧
    (sampleRecord.payload.agent_id.isSome = true →
      (updatedPayload sampleProviders.digest "T" "new"
          sampleRecord.payload none).agent_id = sampleRecord.payload.agent_id) ∧
    (sampleRecord.payload.run_id.isSome = true →
      (updatedPayload sampleProviders.digest "T" "new"
          sampleRecord.payload none).run_id = sampleRecord.payload.run_id) ∧
    ((_update_memory sampleProviders.embed sampleProviders.digest "T" "m1"
        "new" [] none sampleState).2.1).store.lookup "m1" =
      some ⟨(match ([] : List (String × Vec)).lookup "new" with
             | some v => v
             | none => sampleProviders.embed "new"),
        updatedPayload sampleProviders.digest "T" "new"
          sampleRecord.payload none⟩ ∧
    (∀ k, k ≠ "m1" →
      ((_update_memory sampleProviders.embed sampleProviders.digest "T" "m1"
          "new" [] none sampleState).2.1).store.lookup k =
        sampleState.store.lookup k) ∧
    ((_update_memory sampleProviders.embed sampleProviders.digest "T" "m1"
        "new" [] none sampleState).2.1).history = sampleState.history ++
      [{ memory_id := "m1", prev_value := sampleRecord.payload.data,
         new_value := some "new", event := "UPDATE",
         created_at := sampleRecord.payload.created_at,
         updated_at := some "T" }]) :=
  ⟨rfl,
    c7_update_memory_preserves sampleProviders.embed sampleProviders.digest
      "T" "m1" "new" [] none sampleState sampleRecord rfl⟩

/-- C10: for every direct caller-facing `update(id, data)` on a record whose
payload carries non-reserved metadata keys, the stored payload after the
update is rebuilt from scratch: the non-reserved keys are gone and only the
reserved fields survive (new data/hash, preserved creation time and scope
keys, fresh update time). -/
theorem c10_update_drops_extra_metadata (P : Providers)
    (memory_id data : String) (s : State) (r : VecRec)
    (h : s.store.lookup memory_id = some r)
    (hx : r.payload.extra ≠ []) :
    (Memory.update P memory_id data s).1 = .ok "Memory updated successfully!" ∧
    ((Memory.update P memory_id data s).2.1).store.lookup memory_id =
      some ⟨P.embed data,
        { data := some data
          hash := some (P.digest data)
          created_at := r.payload.created_at
          updated_at := some P.now
          user_id := r.payload.user_id
          agent_id := r.payload.agent_id
          run_id := r.payload.run_id
          extra := [] }⟩ := by
  have hp : updatedPayload P.digest P.now data r.payload none =
      { data := some data
        hash := some (P.digest data)
        created_at := r.payload.created_at
        updated_at := some P.now
        user_id := r.payload.user_id
        agent_id := r.payload.agent_id
        run_id := r.payload.run_id
        extra := [] } := by
    rw [updatedPayload_eq]
    cases hu : r.payload.user_id <;> cases ha : r.payload.agent_id <;>
      cases hr : r.payload.run_id <;> simp [Payload.empty, hu, ha, hr]
  constructor
  · simp [Memory.update, _update_memory, h]
  · have hst : ((Memory.update P memory_id data s).2.1).store =
        storeUpdate s.store memory_id
          ⟨P.embed data, updatedPayload P.digest P.now data r.payload none⟩ := by
      simp [Memory.update, _update_memory, h]
    rw [hst, hp]
    exact storeUpdate_lookup_self s.store memory_id r _ h

theorem c10_update_drops_extra_metadata_witness :
    (sampleState.store.lookup "m1" = some sampleRecord) ∧
    (sampleRecord.payload.extra ≠ []) ∧
    ((Memory.update sampleProviders "m1" "new" sampleState).1 =
      .ok "Memory updated successfully!" ∧
    ((Memory.update sampleProviders "m1" "new" sampleState).2.1).store.lookup
        "m1" =
      some ⟨sampleProviders.embed "new",
        { data := some "new"
          hash := some (sampleProviders.digest "new")
          created_at := sampleRecord.payload.created_at
          updated_at := some sampleProviders.now
          user_id := sampleRecord.payload.user_id
          agent_id := sampleRecord.payload.agent_id
          run_id := sampleRecord.payload.run_id
          extra := [] }⟩) :=
  ⟨rfl, by decide,
    c10_update_drops_extra_metadata sampleProviders "m1" "new" sampleState
      sampleRecord rfl (by decide)⟩

/-- Provider instantiation whose planner emits one UPDATE decision against
handle "0" while the similarity search returns no candidates, so the
handle-to-real-id mapping built for the call is empty and the handle is
unknown. -/
def c1Providers : Providers :=
  { sampleProviders with
      plannerResp := some (.obj [("memory", .arr
        [.obj [("event", .str "UPDATE"), ("id", .str "0"),
               ("text", .str "t"), ("old_memory", .str "o")]])]) }

/-- C1 counterexample: a planner decision with event UPDATE whose handle "0"
is not in the (empty) handle-to-real-id mapping does NOT make the add
operation fail: the vector path returns success with an empty mutation list
and an unchanged store, because the per-decision exception handler catches
the `KeyError` from `temp_uuid_mapping[resp["id"]]`, logs it and moves on. -/
theorem c1_counterexample :
    (_add_to_vector_store c1Providers.embed c1Providers.digest
        c1Providers.searchFn c1Providers.extractionResp c1Providers.plannerResp
        c1Providers.freshIds c1Providers.now Payload.empty Filters.empty
        State.empty).1 = .ok [] ∧
    (_add_to_vector_store c1Providers.embed c1Providers.digest
        c1Providers.searchFn c1Providers.extractionResp c1Providers.plannerResp
        c1Providers.freshIds c1Providers.now Payload.empty Filters.empty
        State.empty).2.2.1 = State.empty ∧
    (Memory.add c1Providers "v1.1" false [⟨"user", "hello"⟩] (some "u") none
        none none none false "vector" State.empty).1 =
      .ok (.v11 (some (.vec []))) :=
  ⟨rfl, rfl, rfl⟩

/-- C1 (amended): a reconciliation decision with event UPDATE or DELETE
whose handle is not in the handle-to-real-id mapping is skipped — it
applies no mutation, reports nothing and leaves the decision loop exactly
where it was — and processing continues with the later decisions; the call
does not fail. -/
theorem c1_unknown_handle_skipped (embed : String → Vec)
    (digest : String → String) (freshIds : Nat → String) (now : String)
    (cache : List (String × Vec)) (mapping : List (String × String))
    (d : Json) (rest : List Json) (acc : DecAcc) (ev hdl : String)
    (hev : d.getKey "event" = some (.str ev))
    (hud : ev = "UPDATE" ∨ ev = "DELETE")
    (hid : d.getKey "id" = some (.str hdl))
    (hun : mapping.lookup hdl = none) :
    applyDecisions embed digest freshIds now cache mapping (d :: rest) acc =
      applyDecisions embed digest freshIds now cache mapping rest acc := by
  rcases hud with rfl | rfl <;>
    simp [applyDecisions, applyOneDecision, hev, hid, hun, Json.asStr]

theorem c1_unknown_handle_skipped_witness :
    ((Json.obj [("event", Json.str "UPDATE"), ("id", Json.str "0")]).getKey
        "event" = some (Json.str "UPDATE")) ∧
    applyDecisions (fun _ => ([1] : Vec)) (fun t => t) (fun n => toString n)
        "T" [] [] [Json.obj [("event", Json.str "UPDATE"),
          ("id", Json.str "0")]] ⟨[], Payload.empty, State.empty, 0, []⟩ =
      applyDecisions (fun _ => ([1] : Vec)) (fun t => t) (fun n => toString n)
        "T" [] [] [] ⟨[], Payload.empty, State.empty, 0, []⟩ :=
  ⟨rfl,
    c1_unknown_handle_skipped (fun _ => [1]) (fun t => t) (fun n => toString n)
      "T" [] [] (Json.obj [("event", Json.str "UPDATE"), ("id", Json.str "0")])
      [] ⟨[], Payload.empty, State.empty, 0, []⟩ "UPDATE" "0" rfl (Or.inl rfl)
      rfl rfl⟩

/-- Provider instantiation whose planner response parses but has no
`memory` key. -/
def c2Providers : Providers :=
  { sampleProviders with plannerResp := some (.obj []) }

/-- C2 counterexample: a planner response that parses but is missing the
required decision-list key (`memory`) does NOT abort the vector path: the
outer exception handler swallows the lookup failure and the call returns
success with an empty mutation list, so no error propagates to the
caller. -/
theorem c2_counterexample :
    (_add_to_vector_store c2Providers.embed c2Providers.digest
        c2Providers.searchFn c2Providers.extractionResp c2Providers.plannerResp
        c2Providers.freshIds c2Providers.now Payload.empty Filters.empty
        State.empty).1 = .ok [] ∧
    (_add_to_vector_store c2Providers.embed c2Providers.digest
        c2Providers.searchFn c2Providers.extractionResp c2Providers.plannerResp
        c2Providers.freshIds c2Providers.now Payload.empty Filters.empty
        State.empty).2.2.1 = State.empty :=
  ⟨rfl, rfl⟩

/-- C2 (amended): a planner response that is not parseable as structured
data aborts the vector path with the parse error and no store mutation;
a parseable response missing the decision-list key instead degrades to an
empty decision list (success, no mutation, no propagated error), and a
decision missing its `event` field is skipped individually. -/
theorem c2_planner_validation (embed : String → Vec)
    (digest : String → String)
    (searchFn : List (String × VecRec) → Vec → Filters → List (String × VecRec))
    (extraction : Option Json) (freshIds : Nat → String) (now : String)
    (metadata : Payload) (filters : Filters) (s : State)
    (cc : List (String × Vec) × List (String × String))
    (hretr : (retrieveCandidates embed searchFn filters s.store
      (newRetrievedFacts extraction) [] [] [PCall.llmExtraction]).1 = .ok cc) :
    ((_add_to_vector_store embed digest searchFn extraction none freshIds now
        metadata filters s).1 = .error .jsonError ∧
      (_add_to_vector_store embed digest searchFn extraction none freshIds now
        metadata filters s).2.2.1 = s) ∧
    (∀ j : Json, j.getKey "memory" = none →
      (_add_to_vector_store embed digest searchFn extraction (some j) freshIds
        now metadata filters s).1 = .ok [] ∧
      (_add_to_vector_store embed digest searchFn extraction (some j) freshIds
        now metadata filters s).2.2.1 = s) ∧
    (∀ (d : Json) (rest : List Json) (acc : DecAcc)
        (cache2 : List (String × Vec)) (mapping : List (String × String)),
      d.getKey "event" = none →
      applyDecisions embed digest freshIds now cache2 mapping (d :: rest) acc =
        applyDecisions embed digest freshIds now cache2 mapping rest acc) := by
  refine ⟨⟨?_, ?_⟩, ?_, ?_⟩
  · simp [_add_to_vector_store, hretr]
  · simp [_add_to_vector_store, hretr]
  · intro j hj
    constructor <;> simp [_add_to_vector_store, hretr, hj, applyDecisions]
  · intro d rest acc cache2 mapping hd
    simp [applyDecisions, applyOneDecision, hd]

theorem c2_planner_validation_witness :
    ((retrieveCandidates sampleProviders.embed sampleProviders.searchFn
        Filters.empty State.empty.store
        (newRetrievedFacts sampleProviders.extractionResp) [] []
        [PCall.llmExtraction]).1 = .ok ([("f", [1])], [])) ∧
    ((_add_to_vector_store sampleProviders.embed sampleProviders.digest
        sampleProviders.searchFn sampleProviders.extractionResp none
        sampleProviders.freshIds sampleProviders.now Payload.empty
        Filters.empty State.empty).1 = .error .jsonError ∧
      (_add_to_vector_store sampleProviders.embed sampleProviders.digest
        sampleProviders.searchFn sampleProviders.extractionResp none
        sampleProviders.freshIds sampleProviders.now Payload.empty
        Filters.empty State.empty).2.2.1 = State.empty) :=
  ⟨rfl,
    (c2_planner_validation sampleProviders.embed sampleProviders.digest
      sampleProviders.searchFn sampleProviders.extractionResp
      sampleProviders.freshIds sampleProviders.now Payload.empty Filters.empty
      State.empty ([("f", [1])], []) rfl).1⟩

/-- C3 counterexample: an add call with no scope identifier at all but with
`skip_extraction = true` and `store_mode = "both"` raises the configuration
error, not the scope error — the configuration check at the top of `add`
takes precedence over the scope check. -/
theorem c3_counterexample :
    (Memory.add sampleProviders "v1.1" false [] none none none none none
        true "both" State.empty).1 =
      .error (.configError
        "Cannot add to graph if skip_extraction=True; please set store_mode=vector.") :=
  rfl

/-- C3 (amended): for every call to add, search, or delete_all in which
none of the three scope identifiers is supplied, the operation raises the
scope error before any provider is invoked (empty call trace) and without
touching the store — except that for add the configuration check
(skip-extraction with a graph-inclusive store mode) takes precedence, so
the add part assumes that check passes. -/
theorem c3_scope_guard (P : Providers) (api_version : String)
    (enable_graph : Bool) (messages : List Msg) (metadata0 : Option Payload)
    (skip_extraction : Bool) (store_mode : String) (query : String)
    (s : State)
    (hnc : (skip_extraction &&
      (store_mode == "both" || store_mode == "graph")) = false) :
    Memory.add P api_version enable_graph messages none none none metadata0
        none skip_extraction store_mode s =
      (.error (.scopeError
        "One of the filters: user_id, agent_id or run_id is required!"),
        s, []) ∧
    Memory.search P api_version enable_graph query none none none none s =
      (.error (.scopeError
        "One of the filters: user_id, agent_id or run_id is required!"),
        []) ∧
    Memory.delete_all P api_version enable_graph none none none s =
      (.error (.scopeError
        "At least one filter is required to delete all memories. If you want to delete all memories, use the reset() method."),
        s, []) := by
  refine ⟨?_, ?_, ?_⟩
  · simp [Memory.add, hnc, truthy, Filters.empty]
  · simp [Memory.search, truthy, Filters.empty]
  · simp [Memory.delete_all, truthy, Filters.empty]

theorem c3_scope_guard_witness :
    ((false && (("vector" : String) == "both" || ("vector" : String) == "graph")) = false) ∧
    (Memory.add sampleProviders "v1.1" false [⟨"user", "hello"⟩] none none
        none none none false "vector" State.empty =
      (.error (.scopeError
        "One of the filters: user_id, agent_id or run_id is required!"),
        State.empty, []) ∧
    Memory.search sampleProviders "v1.1" false "q" none none none none
        State.empty =
      (.error (.scopeError
        "One of the filters: user_id, agent_id or run_id is required!"),
        []) ∧
    Memory.delete_all sampleProviders "v1.1" false none none none
        State.empty =
      (.error (.scopeError
        "At least one filter is required to delete all memories. If you want to delete all memories, use the reset() method."),
        State.empty, [])) :=
  ⟨rfl,
    c3_scope_guard sampleProviders "v1.1" false [⟨"user", "hello"⟩] none
      false "vector" "q" State.empty rfl⟩

/-- Provider instantiation with an unparsable extraction response and a
planner response carrying one ADD decision. -/
def c5Providers : Providers :=
  { sampleProviders with extractionResp := none }

/-- C5 counterexample: with an unparsable extraction response the add
operation does NOT stop at zero mutations with an empty mutation list:
the planner is still consulted (with an empty fact list), and here its ADD
decision is applied, producing one mutation and a non-empty result. -/
theorem c5_counterexample :
    (_add_to_vector_store c5Providers.embed c5Providers.digest
        c5Providers.searchFn c5Providers.extractionResp c5Providers.plannerResp
        c5Providers.freshIds c5Providers.now Payload.empty Filters.empty
        State.empty).1 =
      .ok [⟨"id0", .str "f", "ADD", none⟩] ∧
    (_add_to_vector_store c5Providers.embed c5Providers.digest
        c5Providers.searchFn c5Providers.extractionResp c5Providers.plannerResp
        c5Providers.freshIds c5Providers.now Payload.empty Filters.empty
        State.empty).2.2.1.history =
      [{ memory_id := "id0", prev_value := none, new_value := some "f",
         event := "ADD", created_at := some "T" }] ∧
    (Memory.add c5Providers "v1.1" false [⟨"user", "hello"⟩] (some "u") none
        none none none false "vector" State.empty).1 =
      .ok (.v11 (some (.vec [⟨"id0", .str "f", "ADD", none⟩]))) :=
  ⟨rfl, rfl, rfl⟩

/-- C5 (amended): an extraction response that cannot be parsed, or that
parses but lacks the `facts` field, is treated as the empty fact list and
does not raise at the extraction step: in both cases the call behaves
exactly as if the model had returned an empty facts array, and then
proceeds to the reconciliation step, whose planner response determines any
mutations or failure. -/
theorem c5_extraction_degrades (embed : String → Vec)
    (digest : String → String)
    (searchFn : List (String × VecRec) → Vec → Filters → List (String × VecRec))
    (planner : Option Json) (freshIds : Nat → String) (now : String)
    (metadata : Payload) (filters : Filters) (s : State) (j : Json)
    (hj : j.getKey "facts" = none) :
    newRetrievedFacts none = [] ∧
    newRetrievedFacts (some j) = [] ∧
    _add_to_vector_store embed digest searchFn none planner freshIds now
        metadata filters s =
      _add_to_vector_store embed digest searchFn
        (some (.obj [("facts", .arr [])])) planner freshIds now metadata
        filters s ∧
    _add_to_vector_store embed digest searchFn (some j) planner freshIds now
        metadata filters s =
      _add_to_vector_store embed digest searchFn
        (some (.obj [("facts", .arr [])])) planner freshIds now metadata
        filters s := by
  have h2 : newRetrievedFacts (some j) =
      newRetrievedFacts (some (Json.obj [("facts", Json.arr [])])) := by
    have h3 : newRetrievedFacts (some (Json.obj [("facts", Json.arr [])])) =
        [] := rfl
    rw [h3]
    simp [newRetrievedFacts, hj]
  refine ⟨rfl, by simp [newRetrievedFacts, hj], rfl, ?_⟩
  simp only [_add_to_vector_store, h2]

theorem c5_extraction_degrades_witness :
    ((Json.obj []).getKey "facts" = none) ∧
    (newRetrievedFacts none = [] ∧
    newRetrievedFacts (some (Json.obj [])) = [] ∧
    _add_to_vector_store sampleProviders.embed sampleProviders.digest
        sampleProviders.searchFn none sampleProviders.plannerResp
        sampleProviders.freshIds sampleProviders.now Payload.empty
        Filters.empty State.empty =
      _add_to_vector_store sampleProviders.embed sampleProviders.digest
        sampleProviders.searchFn (some (.obj [("facts", .arr [])]))
        sampleProviders.plannerResp sampleProviders.freshIds
        sampleProviders.now Payload.empty Filters.empty State.empty ∧
    _add_to_vector_store sampleProviders.embed sampleProviders.digest
        sampleProviders.searchFn (some (Json.obj []))
        sampleProviders.plannerResp sampleProviders.freshIds
        sampleProviders.now Payload.empty Filters.empty State.empty =
      _add_to_vector_store sampleProviders.embed sampleProviders.digest
        sampleProviders.searchFn (some (.obj [("facts", .arr [])]))
        sampleProviders.plannerResp sampleProviders.freshIds
        sampleProviders.now Payload.empty Filters.empty State.empty) :=
  ⟨rfl,
    c5_extraction_degrades sampleProviders.embed sampleProviders.digest
      sampleProviders.searchFn sampleProviders.plannerResp
      sampleProviders.freshIds sampleProviders.now Payload.empty
      Filters.empty State.empty (Json.obj []) rfl⟩

/-- C8 (code bug at the failing input): with api v1.1, graph enabled and
store mode "both", both paths succeed — the vector path alone returns one
ADD mutation (first conjunct) and the graph path returns one relation — yet
the merged result of `add` carries the graph list under the results key and
nothing under the relations key (second conjunct): both path results are
Python lists, so the line-130 dispatch predicate sends both to
`vector_store_result`, the graph result overwrites the vector result, and
`graph_result` stays `None`. -/
theorem c8_merge_misassigns_results :
    (_add_to_vector_store sampleProviders.embed sampleProviders.digest
        sampleProviders.searchFn sampleProviders.extractionResp
        sampleProviders.plannerResp sampleProviders.freshIds
        sampleProviders.now { Payload.empty with user_id := some "u" }
        { Filters.empty with user_id := some "u" } State.empty).1 =
      .ok [⟨"id0", .str "f", "ADD", none⟩] ∧
    (Memory.add sampleProviders "v1.1" true [⟨"user", "hello"⟩] (some "u")
        none none none none false "both" State.empty).1 =
      .ok (.v11Graph (some (.gph [⟨"a", "r", "b"⟩])) none) :=
  ⟨rfl, rfl⟩

end Mem0
